import Mathlib

/-!
Shallow embedding of the Privy SIWE bug-reproduction page
(`src/unnamed/part_000`, the automatic-reauthentication variant of
`App.tsx`).  The page's local React state becomes an explicit `AppState`
record threaded through each handler; the externally owned reactive values
and the outcomes of the asynchronous SDK / wallet-provider calls that one
handler invocation would observe are collected in an `Env` record.  The
wall-clock timestamp prefixed to every log line in the source is real time
and is omitted from the model; `wallets[0]` is modelled by the optional
connected address (the wallet object is present exactly when its address
is), and `getEthereumProvider` followed by `provider.request(personal_sign)`
is collapsed into one fallible signing step, since no observable state
change separates the two awaits in the source.
-/

namespace SiweDemo

/-- Ghost trace of external calls, in program order: each constructor marks
the point where the corresponding awaited SDK or provider call starts in
the source. -/
inductive Event where
  | logoutCall : Event
  | delayMs : Nat → Event
  | generateCall : String → String → Event
  | signCall : String → String → Event
  | loginCall : String → String → Event
  deriving DecidableEq, Repr

/-- True exactly for the events of the sign-in (SIWE) flow: challenge
generation, wallet signature, and the SDK sign-in call. -/
def Event.isSignIn : Event → Bool
  | .generateCall _ _ => true
  | .signCall _ _ => true
  | .loginCall _ _ => true
  | _ => false

/-- One render snapshot of the externally owned reactive values, together
with the outcome each external call would have if awaited during this
invocation.  `authenticatedAfterLogout` is the value the SDK's
`authenticated` flag reports once `logout()` has settled; the component's
handlers never read it, because they close over the render-time
`authenticated` binding. -/
structure Env where
  ready : Bool
  authenticated : Bool
  authenticatedAfterLogout : Bool
  address : Option String
  walletsCount : Nat
  generateSiweMessage : String → String → Except String String
  personalSign : String → String → Except String String
  loginWithSiwe : String → String → Except String Unit
  logoutResult : Except String Unit

/-- The page's own state: the log lines, the displayed error, the in-flight
flag `isProcessingAccountChange`, the two refs `prevAddressRef` and
`hasCompletedSiweRef`, plus the ghost event trace. -/
structure AppState where
  logs : List String
  error : Option String
  isProcessingAccountChange : Bool
  prevAddress : Option String
  hasCompletedSiwe : Bool
  events : List Event
  deriving DecidableEq, Repr

/-- The `log` helper: appends one line (timestamp prefix omitted). -/
def AppState.log (s : AppState) (msg : String) : AppState :=
  { s with logs := s.logs ++ [msg] }

/-- Record one external call in the ghost trace. -/
def AppState.emit (s : AppState) (e : Event) : AppState :=
  { s with events := s.events ++ [e] }

/-- The fixed chain identifier passed to `generateSiweMessage`. -/
def siweChainId : String := "eip155:56"

/-- The fixed settle delay (ms) between `logout()` and the SIWE retry. -/
def settleDelayMs : Nat := 100

/-- The fixed diagnostic note logged when the automatic handler fails. -/
def embeddedWalletNote : String :=
  "NOTE: Cannot get linked embedded wallet with wallet B"

/-- The message of the error thrown by `handleLoginSiwe` without a wallet. -/
def noAddressMsg : String := "No address - connect wallet first"

/-- How a JavaScript template literal renders an optional address. -/
def showOptAddr : Option String → String
  | none => "undefined"
  | some a => a

/-- `performSiweLogin`: generate the challenge for the connected address,
obtain a signature from the provider, and call `loginWithSiwe`; on success
set `hasCompletedSiweRef`.  Rejections of the awaited calls propagate to
the caller as the `Except` component. -/
def performSiweLogin (env : Env) (s : AppState) :
    AppState × Except String Unit :=
  match env.address with
  | none => (s.log "Cannot perform SIWE: no wallet connected", Except.ok ())
  | some address =>
    let s := s.log "Generating SIWE message..."
    let s := s.emit (Event.generateCall address siweChainId)
    match env.generateSiweMessage address siweChainId with
    | Except.error e => (s, Except.error e)
    | Except.ok message =>
      let s := s.log "Message generated"
      let s := s.log "Requesting signature..."
      let s := s.emit (Event.signCall message address)
      match env.personalSign message address with
      | Except.error e => (s, Except.error e)
      | Except.ok signature =>
        let s := s.log "Signature obtained"
        let s := s.log "Calling loginWithSiwe()..."
        let s := s.emit (Event.loginCall message signature)
        match env.loginWithSiwe message signature with
        | Except.error e => (s, Except.error e)
        | Except.ok _ =>
          let s := s.log "✅ SUCCESS: loginWithSiwe completed!"
          ({ s with hasCompletedSiwe := true }, Except.ok ())

/-- The catch block of the automatic account-change handler: log the
failure, display it, and log the fixed diagnostic note. -/
def accountChangeCatch (s : AppState) (e : String) : AppState :=
  let s := s.log ("❌ FAILED: " ++ e)
  let s := { s with error := some e }
  s.log embeddedWalletNote

/-- `handleAccountChange`: the reactive observer run on every change of
`[address, ready]`.  Guards in source order: not ready / no address; first
observation records only; unchanged address; no completed SIWE records
only; in-flight skip; otherwise act (record new address, log, raise the
in-flight flag, clear the error, logout, settle delay, SIWE retry, catch,
finally lower the flag). -/
def handleAccountChange (env : Env) (s : AppState) : AppState :=
  if env.ready = false then s else
  match env.address with
  | none => s
  | some address =>
    match s.prevAddress with
    | none => { s with prevAddress := some address }
    | some prev =>
      if prev = address then s
      else if s.hasCompletedSiwe = false then
        { s with prevAddress := some address }
      else if s.isProcessingAccountChange then s
      else
        let oldAddress := prev
        let s := { s with prevAddress := some address }
        let s := s.log "--- WALLET ACCOUNT CHANGE DETECTED ---"
        let s := s.log ("Previous: " ++ oldAddress)
        let s := s.log ("New: " ++ address)
        let s := { s with isProcessingAccountChange := true, error := none }
        let s := s.log "Step 1: Calling logout()..."
        let s := s.emit Event.logoutCall
        let s :=
          match env.logoutResult with
          | Except.error e => accountChangeCatch s e
          | Except.ok _ =>
            let s := s.log "logout() completed"
            let s := s.emit (Event.delayMs settleDelayMs)
            let s := s.log "Step 2: Attempting SIWE with new wallet..."
            match performSiweLogin env s with
            | (s, Except.error e) => accountChangeCatch s e
            | (s, Except.ok _) => s
        { s with isProcessingAccountChange := false }

/-- The catch block of the manual SIWE button. -/
def siweCatch (s : AppState) (e : String) : AppState :=
  let s := s.log ("❌ FAILED: " ++ e)
  { s with error := some e }

/-- `handleLoginSiwe`: the manual SIWE button.  Logs the diagnostic state
lines, throws locally when no address is connected, otherwise runs
`performSiweLogin`; every failure is caught, logged and displayed. -/
def handleLoginSiwe (env : Env) (s : AppState) : AppState :=
  let s := { s with error := none }
  let s := s.log "--- Starting SIWE Login ---"
  let s := s.log ("Address: " ++ showOptAddr env.address)
  let s := s.log ("Privy ready: " ++ toString env.ready)
  let s := s.log ("Privy authenticated: " ++ toString env.authenticated)
  let s := s.log ("Wallets count: " ++ toString env.walletsCount)
  match env.address with
  | none => siweCatch s noAddressMsg
  | some _ =>
    match performSiweLogin env s with
    | (s, Except.error e) => siweCatch s e
    | (s, Except.ok _) => s

/-- `handleLogout`: the manual logout button.  Both authenticated-flag log
lines interpolate the same render-captured `authenticated` binding; the
`setTimeout` callback is modelled as appending its line at the end of the
operation. -/
def handleLogout (env : Env) (s : AppState) : AppState :=
  let s := { s with error := none }
  let s := s.log "--- Logging out from Privy ---"
  let s := s.log ("Before: authenticated = " ++ toString env.authenticated)
  let s := s.emit Event.logoutCall
  match env.logoutResult with
  | Except.error e =>
    let s := s.log ("Logout failed: " ++ e)
    { s with error := some e }
  | Except.ok _ =>
    let s := s.log "logout() completed"
    let s := s.emit (Event.delayMs 500)
    s.log ("After 500ms: authenticated = " ++ toString env.authenticated)

/-- `clearLogs`: empties the log and clears the displayed error. -/
def clearLogs (s : AppState) : AppState :=
  { s with logs := [], error := none }

/-- `handleConnect`: clears the logs and opens the SDK's connect modal (an
external interactive flow with no further state effect here). -/
def handleConnect (s : AppState) : AppState :=
  (clearLogs s).log "Opening Privy connect modal..."

/-- The sign-in events `performSiweLogin` emits under `env`, as a function
of the environment alone. -/
def siweEvents (env : Env) : List Event :=
  match env.address with
  | none => []
  | some address =>
    Event.generateCall address siweChainId ::
    match env.generateSiweMessage address siweChainId with
    | Except.error _ => []
    | Except.ok message =>
      Event.signCall message address ::
      match env.personalSign message address with
      | Except.error _ => []
      | Except.ok signature => [Event.loginCall message signature]

/-- The events the acting branch of the account-change handler appends
after its logout call, as a function of the environment: nothing more when
logout rejects, otherwise the settle delay followed by the sign-in
events. -/
def actTail (env : Env) : List Event :=
  match env.logoutResult with
  | Except.ok _ => Event.delayMs settleDelayMs :: siweEvents env
  | Except.error _ => []

/-- The outcome of the SIWE flow under `env` (mirrors the `Except`
component of `performSiweLogin`). -/
def siweResult (env : Env) : Except String Unit :=
  match env.address with
  | none => Except.ok ()
  | some address =>
    match env.generateSiweMessage address siweChainId with
    | Except.error e => Except.error e
    | Except.ok message =>
      match env.personalSign message address with
      | Except.error e => Except.error e
      | Except.ok signature =>
        match env.loginWithSiwe message signature with
        | Except.error e => Except.error e
        | Except.ok _ => Except.ok ()

/-- Whether the SIWE flow under `env` reaches a successful sign-in call. -/
def siweSucceeds (env : Env) : Bool :=
  env.address.isSome &&
    match siweResult env with
    | Except.ok _ => true
    | Except.error _ => false

/-- The first failure, if any, of the logout / delay / sign-in sequence
inside the automatic handler's try block. -/
def tryFailure (env : Env) : Option String :=
  match env.logoutResult with
  | Except.error e => some e
  | Except.ok _ =>
    match siweResult env with
    | Except.error e => some e
    | Except.ok _ => none

/-- Number of `logout()` calls recorded in the ghost trace. -/
def logoutCalls (s : AppState) : Nat :=
  s.events.count Event.logoutCall

/-- Whether one handler invocation under `env` observes a distinct change
away from the previously recorded address. -/
def observesChange (env : Env) (s : AppState) : Bool :=
  env.ready &&
    match env.address, s.prevAddress with
    | some a, some p => decide (p ≠ a)
    | _, _ => false

/-- Feed a sequence of observations (render snapshots) to the automatic
account-change handler. -/
def runHandler : List Env → AppState → AppState
  | [], s => s
  | e :: es, s => runHandler es (handleAccountChange e s)

/-- Number of observations in the sequence that present a distinct change
away from the address recorded at that moment. -/
def countChanges : List Env → AppState → Nat
  | [], _ => 0
  | e :: es, s =>
    (if observesChange e s then 1 else 0) +
      countChanges es (handleAccountChange e s)

/-- Whether `pre` is an initial segment of `l`. -/
def isPrefixList : List Char → List Char → Bool
  | [], _ => true
  | _ :: _, [] => false
  | a :: as, b :: bs => a = b && isPrefixList as bs

/-- Whether `s` contains `pat` as a contiguous substring. -/
def strContains (s pat : String) : Bool :=
  s.data.tails.any (isPrefixList pat.data)

/-- Number of sign-in-flow calls (challenge, signature, SDK sign-in)
recorded in the ghost trace. -/
def signInCalls (s : AppState) : Nat :=
  (s.events.filter Event.isSignIn).length

/-- A concrete reproduction environment: wallet switched to address B, the
SDK accepts the challenge and signature but rejects the sign-in call as
already authenticated. -/
def envRepro : Env :=
  { ready := true
    authenticated := true
    authenticatedAfterLogout := false
    address := some "0xB"
    walletsCount := 1
    generateSiweMessage := fun _ _ => Except.ok "siwe-message"
    personalSign := fun _ _ => Except.ok "signature-bytes"
    loginWithSiwe := fun _ _ => Except.error "User already authenticated"
    logoutResult := Except.ok () }

/-- The reproduction environment with a sign-in call that succeeds. -/
def envOk : Env :=
  { envRepro with loginWithSiwe := fun _ _ => Except.ok () }

/-- A page state in which SIWE has completed for address A and nothing is
in flight. -/
def sReady : AppState :=
  { logs := []
    error := none
    isProcessingAccountChange := false
    prevAddress := some "0xA"
    hasCompletedSiwe := true
    events := [] }

/-- The empty initial page state. -/
def sInit : AppState :=
  { logs := []
    error := none
    isProcessingAccountChange := false
    prevAddress := none
    hasCompletedSiwe := false
    events := [] }

/-- The ready state while an automatic reauthentication is in flight. -/
def sFlight : AppState :=
  { sReady with isProcessingAccountChange := true }

/-- The ready state before any SIWE sign-in has completed. -/
def sNoSiwe : AppState :=
  { sReady with hasCompletedSiwe := false }

/-- The reproduction environment with the wallet disconnected. -/
def envNoAddr : Env :=
  { envRepro with address := none }

theorem performSiweLogin_spec (env : Env) (s : AppState) :
    (performSiweLogin env s).1.events = s.events ++ siweEvents env ∧
    (performSiweLogin env s).1.error = s.error ∧
    (performSiweLogin env s).1.isProcessingAccountChange =
      s.isProcessingAccountChange ∧
    (performSiweLogin env s).1.prevAddress = s.prevAddress ∧
    (performSiweLogin env s).2 = siweResult env ∧
    (performSiweLogin env s).1.hasCompletedSiwe =
      (s.hasCompletedSiwe || siweSucceeds env) := by
  rcases haddr : env.address with _ | a
  · simp [performSiweLogin, siweEvents, siweResult, siweSucceeds,
      AppState.log, haddr]
  · rcases hg : env.generateSiweMessage a siweChainId with e | m
    · simp [performSiweLogin, siweEvents, siweResult, siweSucceeds,
        AppState.log, AppState.emit, haddr, hg]
    · rcases hp : env.personalSign m a with e | sg
      · simp [performSiweLogin, siweEvents, siweResult, siweSucceeds,
          AppState.log, AppState.emit, haddr, hg, hp]
      · rcases hw : env.loginWithSiwe m sg with e | u
        · simp [performSiweLogin, siweEvents, siweResult, siweSucceeds,
            AppState.log, AppState.emit, haddr, hg, hp, hw]
        · simp [performSiweLogin, siweEvents, siweResult, siweSucceeds,
            AppState.log, AppState.emit, haddr, hg, hp, hw]

theorem logoutCall_not_mem_siweEvents (env : Env) :
    Event.logoutCall ∉ siweEvents env := by
  rcases haddr : env.address with _ | a
  · simp [siweEvents, haddr]
  · rcases hg : env.generateSiweMessage a siweChainId with e | m
    · simp [siweEvents, haddr, hg]
    · rcases hp : env.personalSign m a with e | sg
      · simp [siweEvents, haddr, hg, hp]
      · rcases hw : env.loginWithSiwe m sg with e | u
        · simp [siweEvents, haddr, hg, hp, hw]
        · simp [siweEvents, haddr, hg, hp, hw]

theorem handleAccountChange_acting (env : Env) (s : AppState) (a p : String)
    (hready : env.ready = true) (haddr : env.address = some a)
    (hprev : s.prevAddress = some p) (hne : p ≠ a)
    (hsiwe : s.hasCompletedSiwe = true)
    (hflight : s.isProcessingAccountChange = false) :
    (handleAccountChange env s).events =
      s.events ++ (Event.logoutCall :: actTail env) ∧
    (handleAccountChange env s).isProcessingAccountChange = false ∧
    (handleAccountChange env s).prevAddress = some a ∧
    (handleAccountChange env s).error = tryFailure env ∧
    (handleAccountChange env s).hasCompletedSiwe = true ∧
    (∀ m, tryFailure env = some m →
      embeddedWalletNote ∈ (handleAccountChange env s).logs) := by
  rcases hl : env.logoutResult with e | u
  · simp [handleAccountChange, hready, haddr, hprev, hne, hsiwe, hflight, hl,
      actTail, accountChangeCatch, AppState.log, AppState.emit, tryFailure]
  · rcases hg : env.generateSiweMessage a siweChainId with e | m
    · simp [handleAccountChange, performSiweLogin, hready, haddr, hprev, hne,
        hsiwe, hflight, hl, hg, actTail, accountChangeCatch, AppState.log,
        AppState.emit, tryFailure, siweResult, siweEvents]
    · rcases hp : env.personalSign m a with e | sg
      · simp [handleAccountChange, performSiweLogin, hready, haddr, hprev,
          hne, hsiwe, hflight, hl, hg, hp, actTail, accountChangeCatch, AppState.log,
          AppState.emit, tryFailure, siweResult, siweEvents]
      · rcases hw : env.loginWithSiwe m sg with e | u
        · simp [handleAccountChange, performSiweLogin, hready, haddr, hprev,
            hne, hsiwe, hflight, hl, hg, hp, hw, actTail, accountChangeCatch,
            AppState.log, AppState.emit, tryFailure, siweResult, siweEvents]
        · simp [handleAccountChange, performSiweLogin, hready, haddr, hprev,
            hne, hsiwe, hflight, hl, hg, hp, hw, actTail, accountChangeCatch,
            AppState.log, AppState.emit, tryFailure, siweResult, siweEvents]

theorem logoutCalls_step (env : Env) (s : AppState) :
    logoutCalls (handleAccountChange env s) ≤
      logoutCalls s + (if observesChange env s then 1 else 0) := by
  rcases hready : env.ready with _ | _
  · simp [handleAccountChange, hready]
  · rcases haddr : env.address with _ | a
    · simp [handleAccountChange, hready, haddr]
    · rcases hprev : s.prevAddress with _ | p
      · simp [handleAccountChange, hready, haddr, hprev, logoutCalls]
      · by_cases hpa : p = a
        · simp [handleAccountChange, hready, haddr, hprev, hpa]
        · rcases hsiwe : s.hasCompletedSiwe with _ | _
          · simp [handleAccountChange, hready, haddr, hprev, hpa, hsiwe,
              logoutCalls]
          · rcases hflight : s.isProcessingAccountChange with _ | _
            · have h := (handleAccountChange_acting env s a p hready haddr
                hprev hpa hsiwe hflight).1
              have hobs : observesChange env s = true := by
                simp [observesChange, hready, haddr, hprev, hpa]
              rw [logoutCalls, h, List.count_append, hobs]
              have hz : List.count Event.logoutCall (actTail env) = 0 := by
                rcases hl : env.logoutResult with e | u
                · simp [actTail, hl]
                · simp [actTail, hl, List.count_cons]
                  exact List.count_eq_zero.mpr (logoutCall_not_mem_siweEvents env)
              simp [List.count_cons, hz, logoutCalls]
            · simp [handleAccountChange, hready, haddr, hprev, hpa, hsiwe,
                hflight]

theorem handleAccountChange_flag_mono (env : Env) (s : AppState)
    (hs : s.hasCompletedSiwe = true) :
    (handleAccountChange env s).hasCompletedSiwe = true := by
  rcases hready : env.ready with _ | _
  · simp [handleAccountChange, hready, hs]
  · rcases haddr : env.address with _ | a
    · simp [handleAccountChange, hready, haddr, hs]
    · rcases hprev : s.prevAddress with _ | p
      · simp [handleAccountChange, hready, haddr, hprev, hs]
      · by_cases hpa : p = a
        · simp [handleAccountChange, hready, haddr, hprev, hpa, hs]
        · rcases hflight : s.isProcessingAccountChange with _ | _
          · exact (handleAccountChange_acting env s a p hready haddr hprev
              hpa hs hflight).2.2.2.2.1
          · simp [handleAccountChange, hready, haddr, hprev, hpa, hs, hflight]

theorem handleLoginSiwe_flag_mono (env : Env) (s : AppState)
    (hs : s.hasCompletedSiwe = true) :
    (handleLoginSiwe env s).hasCompletedSiwe = true := by
  rcases haddr : env.address with _ | a
  · simp [handleLoginSiwe, siweCatch, AppState.log, haddr, hs]
  · rcases hg : env.generateSiweMessage a siweChainId with e | m
    · simp [handleLoginSiwe, performSiweLogin, siweCatch, AppState.log,
        AppState.emit, haddr, hg, hs]
    · rcases hp : env.personalSign m a with e | sg
      · simp [handleLoginSiwe, performSiweLogin, siweCatch, AppState.log,
          AppState.emit, haddr, hg, hp, hs]
      · rcases hw : env.loginWithSiwe m sg with e | u
        · simp [handleLoginSiwe, performSiweLogin, siweCatch, AppState.log,
            AppState.emit, haddr, hg, hp, hw, hs]
        · simp [handleLoginSiwe, performSiweLogin, siweCatch, AppState.log,
            AppState.emit, haddr, hg, hp, hw, hs]

/-- C1: over any sequence of observed render snapshots fed to the automatic
account-change handler, the number of logout/sign-in pairs fired (counted
by their leading logout calls) grows by at most one per observation that
presents a distinct change away from the address recorded at that moment;
and on the very first observed address the handler only records the
address, performing nothing. -/
theorem accountChange_fires_once_per_change :
    (∀ (envs : List Env) (s : AppState),
        logoutCalls (runHandler envs s) ≤
          logoutCalls s + countChanges envs s) ∧
    (∀ (env : Env) (s : AppState) (a : String),
        s.prevAddress = none → env.ready = true → env.address = some a →
        handleAccountChange env s = { s with prevAddress := some a }) := by
  constructor
  · intro envs
    induction envs with
    | nil => intro s; simp [runHandler, countChanges]
    | cons e es ih =>
      intro s
      have h1 := logoutCalls_step e s
      have h2 := ih (handleAccountChange e s)
      simp only [runHandler, countChanges]
      omega
  · intro env s a hprev hready haddr
    simp [handleAccountChange, hready, haddr, hprev]

theorem accountChange_fires_once_per_change_witness :
    logoutCalls (runHandler [envRepro] sReady) ≤
      logoutCalls sReady + countChanges [envRepro] sReady ∧
    handleAccountChange envRepro sInit =
      { sInit with prevAddress := some "0xB" } :=
  ⟨accountChange_fires_once_per_change.1 [envRepro] sReady,
   accountChange_fires_once_per_change.2 envRepro sInit "0xB" rfl rfl rfl⟩

/-- C2: while the in-flight flag is raised, a further detected address
change leaves the state untouched — in particular it produces no
additional logout call and no additional sign-in call, and nothing is
queued for later execution. -/
theorem accountChange_inflight_no_extra_pair (env : Env) (s : AppState)
    (a p : String) (hready : env.ready = true)
    (haddr : env.address = some a) (hprev : s.prevAddress = some p)
    (hne : p ≠ a) (hsiwe : s.hasCompletedSiwe = true)
    (hflight : s.isProcessingAccountChange = true) :
    handleAccountChange env s = s ∧
    logoutCalls (handleAccountChange env s) = logoutCalls s ∧
    signInCalls (handleAccountChange env s) = signInCalls s := by
  have h : handleAccountChange env s = s := by
    simp [handleAccountChange, hready, haddr, hprev, hne, hsiwe, hflight]
  exact ⟨h, by rw [h], by rw [h]⟩

theorem accountChange_inflight_no_extra_pair_witness :
    handleAccountChange envRepro sFlight = sFlight ∧
    logoutCalls (handleAccountChange envRepro sFlight) =
      logoutCalls sFlight ∧
    signInCalls (handleAccountChange envRepro sFlight) =
      signInCalls sFlight :=
  accountChange_inflight_no_extra_pair envRepro sFlight "0xB" "0xA"
    rfl rfl rfl (by decide) rfl rfl

/-- C6: a detected address change with the sign-in-previously-completed
flag still false only records the new address: the state is otherwise
untouched, so no logout, no sign-in, no error update and no in-flight flag
change occur. -/
theorem accountChange_no_prior_siwe_records_only (env : Env) (s : AppState)
    (a p : String) (hready : env.ready = true)
    (haddr : env.address = some a) (hprev : s.prevAddress = some p)
    (hne : p ≠ a) (hsiwe : s.hasCompletedSiwe = false) :
    handleAccountChange env s = { s with prevAddress := some a } ∧
    (handleAccountChange env s).events = s.events ∧
    (handleAccountChange env s).error = s.error ∧
    (handleAccountChange env s).isProcessingAccountChange =
      s.isProcessingAccountChange := by
  have h : handleAccountChange env s = { s with prevAddress := some a } := by
    simp [handleAccountChange, hready, haddr, hprev, hne, hsiwe]
  exact ⟨h, by rw [h], by rw [h], by rw [h]⟩

theorem accountChange_no_prior_siwe_records_only_witness :
    handleAccountChange envRepro sNoSiwe =
      { sNoSiwe with prevAddress := some "0xB" } ∧
    (handleAccountChange envRepro sNoSiwe).events = sNoSiwe.events ∧
    (handleAccountChange envRepro sNoSiwe).error = sNoSiwe.error ∧
    (handleAccountChange envRepro sNoSiwe).isProcessingAccountChange =
      sNoSiwe.isProcessingAccountChange :=
  accountChange_no_prior_siwe_records_only envRepro sNoSiwe "0xB" "0xA"
    rfl rfl rfl (by decide) rfl

/-- C10: when a detected change is skipped because the in-flight flag is
raised, the recorded previous address is left unchanged, whereas the
detected-change skip taken when no prior sign-in completed does update
it to the newly observed address. -/
theorem accountChange_inflight_keeps_prevAddress (env : Env) (s : AppState)
    (a p : String) (hready : env.ready = true)
    (haddr : env.address = some a) (hprev : s.prevAddress = some p)
    (hne : p ≠ a) (hsiwe : s.hasCompletedSiwe = true)
    (hflight : s.isProcessingAccountChange = true) :
    (handleAccountChange env s).prevAddress = s.prevAddress ∧
    (∀ s2 : AppState, s2.prevAddress = some p →
      s2.hasCompletedSiwe = false →
      (handleAccountChange env s2).prevAddress = some a) := by
  constructor
  · simp [handleAccountChange, hready, haddr, hprev, hne, hsiwe, hflight]
  · intro s2 h1 h2
    simp [handleAccountChange, hready, haddr, h1, h2, hne]

theorem accountChange_inflight_keeps_prevAddress_witness :
    (handleAccountChange envRepro sFlight).prevAddress =
      sFlight.prevAddress ∧
    (handleAccountChange envRepro sNoSiwe).prevAddress = some "0xB" :=
  ⟨(accountChange_inflight_keeps_prevAddress envRepro sFlight "0xB" "0xA"
      rfl rfl rfl (by decide) rfl rfl).1,
   (accountChange_inflight_keeps_prevAddress envRepro sFlight "0xB" "0xA"
      rfl rfl rfl (by decide) rfl rfl).2 sNoSiwe rfl rfl⟩

/-- C3: if the try block of an acting automatic-handler run fails with
message `m` — in particular when the sign-in call rejects with a message
containing "already authenticated" — then afterwards the error panel holds
`m` (hence contains "already authenticated" whenever `m` does), the log
contains the fixed diagnostic note about the linked embedded wallet, and
the in-flight flag is false. -/
theorem accountChange_failure_error_note_flag (env : Env) (s : AppState)
    (a p m : String) (hready : env.ready = true)
    (haddr : env.address = some a) (hprev : s.prevAddress = some p)
    (hne : p ≠ a) (hsiwe : s.hasCompletedSiwe = true)
    (hflight : s.isProcessingAccountChange = false)
    (hfail : tryFailure env = some m) :
    (handleAccountChange env s).error = some m ∧
    embeddedWalletNote ∈ (handleAccountChange env s).logs ∧
    (handleAccountChange env s).isProcessingAccountChange = false ∧
    (strContains m "already authenticated" = true →
      strContains (((handleAccountChange env s).error).getD "")
        "already authenticated" = true) := by
  obtain ⟨_, h2, _, h4, _, h6⟩ :=
    handleAccountChange_acting env s a p hready haddr hprev hne hsiwe hflight
  refine ⟨by rw [h4, hfail], h6 m hfail, h2, ?_⟩
  intro hc
  rw [h4, hfail]
  simpa using hc

theorem accountChange_failure_error_note_flag_witness :
    (handleAccountChange envRepro sReady).error =
      some "User already authenticated" ∧
    embeddedWalletNote ∈ (handleAccountChange envRepro sReady).logs ∧
    (handleAccountChange envRepro sReady).isProcessingAccountChange =
      false ∧
    strContains (((handleAccountChange envRepro sReady).error).getD "")
      "already authenticated" = true := by
  have h := accountChange_failure_error_note_flag envRepro sReady
    "0xB" "0xA" "User already authenticated" rfl rfl rfl (by decide) rfl
    rfl rfl
  exact ⟨h.1, h.2.1, h.2.2.1, h.2.2.2 (by decide)⟩

/-- C5: an acting automatic-handler run appends its logout call first;
anything after it appears only when the logout call resolved successfully,
and then it starts with the fixed settle delay followed by the sign-in
events — so no sign-in step (challenge, signature or SDK sign-in call)
begins before logout resolves, and the settle pause sits between them. -/
theorem accountChange_logout_before_signin (env : Env) (s : AppState)
    (a p : String) (hready : env.ready = true)
    (haddr : env.address = some a) (hprev : s.prevAddress = some p)
    (hne : p ≠ a) (hsiwe : s.hasCompletedSiwe = true)
    (hflight : s.isProcessingAccountChange = false) :
    (handleAccountChange env s).events =
      s.events ++ (Event.logoutCall :: actTail env) ∧
    (actTail env = [] ∨
      (env.logoutResult = Except.ok () ∧
        actTail env = Event.delayMs settleDelayMs :: siweEvents env)) ∧
    (∀ ev ∈ actTail env, ev.isSignIn = true →
      env.logoutResult = Except.ok () ∧
      (actTail env).head? = some (Event.delayMs settleDelayMs)) := by
  refine ⟨(handleAccountChange_acting env s a p hready haddr hprev hne
    hsiwe hflight).1, ?_, ?_⟩
  · rcases hl : env.logoutResult with e | u
    · left
      simp [actTail, hl]
    · right
      cases u
      exact ⟨rfl, by simp [actTail, hl]⟩
  · intro ev hmem hsig
    rcases hl : env.logoutResult with e | u
    · simp [actTail, hl] at hmem
    · cases u
      exact ⟨rfl, by simp [actTail, hl]⟩

theorem accountChange_logout_before_signin_witness :
    (handleAccountChange envRepro sReady).events =
      sReady.events ++ (Event.logoutCall :: actTail envRepro) ∧
    (actTail envRepro = [] ∨
      (envRepro.logoutResult = Except.ok () ∧
        actTail envRepro =
          Event.delayMs settleDelayMs :: siweEvents envRepro)) ∧
    (envRepro.logoutResult = Except.ok () ∧
      (actTail envRepro).head? = some (Event.delayMs settleDelayMs)) := by
  have h := accountChange_logout_before_signin envRepro sReady "0xB" "0xA"
    rfl rfl rfl (by decide) rfl rfl
  exact ⟨h.1, h.2.1,
    h.2.2 (Event.loginCall "siwe-message" "signature-bytes")
      (by decide) rfl⟩

/-- C8: when the acting automatic-handler run's logout, challenge,
signature and sign-in calls all succeed, afterwards the in-flight flag is
false and the displayed error is unset. -/
theorem accountChange_success_clears_state (env : Env) (s : AppState)
    (a p : String) (hready : env.ready = true)
    (haddr : env.address = some a) (hprev : s.prevAddress = some p)
    (hne : p ≠ a) (hsiwe : s.hasCompletedSiwe = true)
    (hflight : s.isProcessingAccountChange = false)
    (hok : tryFailure env = none) :
    (handleAccountChange env s).isProcessingAccountChange = false ∧
    (handleAccountChange env s).error = none := by
  obtain ⟨_, h2, _, h4, _, _⟩ :=
    handleAccountChange_acting env s a p hready haddr hprev hne hsiwe hflight
  exact ⟨h2, by rw [h4, hok]⟩

theorem accountChange_success_clears_state_witness :
    (handleAccountChange envOk sReady).isProcessingAccountChange = false ∧
    (handleAccountChange envOk sReady).error = none :=
  accountChange_success_clears_state envOk sReady "0xB" "0xA"
    rfl rfl rfl (by decide) rfl rfl rfl

/-- C7: triggering the manual sign-in with no connected wallet address
fails locally with the error panel set to a message containing
"No address", and it performs no challenge-message request and no
signature request (the ghost trace is unchanged). -/
theorem loginSiwe_no_address_fails_locally (env : Env) (s : AppState)
    (haddr : env.address = none) :
    (handleLoginSiwe env s).error = some noAddressMsg ∧
    strContains noAddressMsg "No address" = true ∧
    (handleLoginSiwe env s).events = s.events := by
  refine ⟨?_, by decide, ?_⟩
  · simp [handleLoginSiwe, siweCatch, AppState.log, haddr]
  · simp [handleLoginSiwe, siweCatch, AppState.log, haddr]

theorem loginSiwe_no_address_fails_locally_witness :
    (handleLoginSiwe envNoAddr sReady).error = some noAddressMsg ∧
    strContains noAddressMsg "No address" = true ∧
    (handleLoginSiwe envNoAddr sReady).events = sReady.events :=
  loginSiwe_no_address_fails_locally envNoAddr sReady rfl

/-- C4: evaluation of the manual logout at the reproduction input.  The
handler closes over the render-time `authenticated` binding, so the log
line emitted by its delayed callback repeats that captured value: even
though the SDK's flag reads false once logout settles
(`authenticatedAfterLogout`), the second logged line still says `true`,
and so does not reflect the flag's post-call state. -/
theorem handleLogout_after_log_is_stale :
    (handleLogout envRepro sInit).logs =
      ["--- Logging out from Privy ---",
       "Before: authenticated = true",
       "logout() completed",
       "After 500ms: authenticated = true"] ∧
    envRepro.authenticated = true ∧
    envRepro.authenticatedAfterLogout = false ∧
    ("After 500ms: authenticated = true" ≠
      "After 500ms: authenticated = " ++
        toString envRepro.authenticatedAfterLogout) := by
  refine ⟨rfl, rfl, rfl, ?_⟩
  decide

/-- C9: the sign-in-previously-completed flag is monotone.  It survives
every operation once true; the manual logout, the connect button and the
log-clearing leave it untouched; `performSiweLogin` raises it exactly when
the SDK sign-in call completes successfully; and consequently a state with
the flag true still fires the automatic logout/sign-in pair on the next
detected address change outside an in-flight handling. -/
theorem hasCompletedSiwe_monotone :
    (∀ (env : Env) (s : AppState), s.hasCompletedSiwe = true →
        (handleAccountChange env s).hasCompletedSiwe = true) ∧
    (∀ (env : Env) (s : AppState), s.hasCompletedSiwe = true →
        (handleLoginSiwe env s).hasCompletedSiwe = true) ∧
    (∀ (env : Env) (s : AppState),
        (handleLogout env s).hasCompletedSiwe = s.hasCompletedSiwe) ∧
    (∀ s : AppState,
        (handleConnect s).hasCompletedSiwe = s.hasCompletedSiwe) ∧
    (∀ s : AppState,
        (clearLogs s).hasCompletedSiwe = s.hasCompletedSiwe) ∧
    (∀ (env : Env) (s : AppState),
        (performSiweLogin env s).1.hasCompletedSiwe =
          (s.hasCompletedSiwe || siweSucceeds env)) ∧
    (∀ (env : Env) (s : AppState) (a p : String),
        env.ready = true → env.address = some a →
        s.prevAddress = some p → p ≠ a → s.hasCompletedSiwe = true →
        s.isProcessingAccountChange = false →
        (handleAccountChange env s).events =
          s.events ++ (Event.logoutCall :: actTail env)) := by
  refine ⟨handleAccountChange_flag_mono, handleLoginSiwe_flag_mono,
    ?_, ?_, ?_, ?_, ?_⟩
  · intro env s
    rcases hl : env.logoutResult with e | u
    · simp [handleLogout, AppState.log, AppState.emit, hl]
    · simp [handleLogout, AppState.log, AppState.emit, hl]
  · intro s
    simp [handleConnect, clearLogs, AppState.log]
  · intro s
    simp [clearLogs]
  · intro env s
    exact (performSiweLogin_spec env s).2.2.2.2.2
  · intro env s a p hready haddr hprev hne hsiwe hflight
    exact (handleAccountChange_acting env s a p hready haddr hprev hne
      hsiwe hflight).1

theorem hasCompletedSiwe_monotone_witness :
    (handleAccountChange envRepro sReady).hasCompletedSiwe = true ∧
    (handleLoginSiwe envRepro sReady).hasCompletedSiwe = true ∧
    (handleLogout envRepro sReady).hasCompletedSiwe =
      sReady.hasCompletedSiwe ∧
    (handleConnect sReady).hasCompletedSiwe = sReady.hasCompletedSiwe ∧
    (clearLogs sReady).hasCompletedSiwe = sReady.hasCompletedSiwe ∧
    (performSiweLogin envOk sInit).1.hasCompletedSiwe =
      (sInit.hasCompletedSiwe || siweSucceeds envOk) ∧
    (handleAccountChange envRepro sReady).events =
      sReady.events ++ (Event.logoutCall :: actTail envRepro) :=
  ⟨hasCompletedSiwe_monotone.1 envRepro sReady rfl,
   hasCompletedSiwe_monotone.2.1 envRepro sReady rfl,
   hasCompletedSiwe_monotone.2.2.1 envRepro sReady,
   hasCompletedSiwe_monotone.2.2.2.1 sReady,
   hasCompletedSiwe_monotone.2.2.2.2.1 sReady,
   hasCompletedSiwe_monotone.2.2.2.2.2.1 envOk sInit,
   hasCompletedSiwe_monotone.2.2.2.2.2.2 envRepro sReady "0xB" "0xA"
     rfl rfl rfl (by decide) rfl rfl⟩

end SiweDemo
